import Mathlib

/-!
Shallow embedding of the core inference-serving pipeline of
`src/api/api_fraude.py` (class `ModelManager` and the `/predict` and
`/health` route bodies), together with theorems settling the frozen
claims about it.

Modelling conventions:
* Python scalar values that can appear in a JSON payload are modelled by
  `PyValue`; machine floats are modelled by `ℚ` (the spec and code only
  compare against exact decimal thresholds).  A string accepted by
  Python's builtin `float` parser is `numStr q` (carrying the parsed
  value); a string rejected by it is `nonNumStr s`.
* A JSON object is an association list `Payload`; `dict` key lookup is
  `List.lookup`.
* External libraries (`joblib.load`, `sklearn`'s `StandardScaler`, the
  pickled XGBoost classifier) are not repository code; they enter the
  embedding as opaque parameters of a `LoadEnv` record, and a classifier
  invocation that may raise is a function into `Except String _`.
-/

namespace FraudAPI

/-- A Python value that can occur in a request payload.  `numStr q` is a
string that Python's `float` parses to `q`; `nonNumStr s` is a string that
`float` rejects with `ValueError`; `noneV` is Python `None`. -/
inductive PyValue where
  | intV (n : Int)
  | floatV (q : ℚ)
  | boolV (b : Bool)
  | numStr (q : ℚ)
  | nonNumStr (s : String)
  | noneV
deriving DecidableEq, Repr

/-- A JSON object, as the route hands it to `ModelManager`: an association
list from string keys to values (`dict` lookup is `List.lookup`). -/
def Payload := List (String × PyValue)

instance : DecidableEq Payload := by
  unfold Payload
  infer_instance

/-- Lookup `dados[f]` for a key known (or assumed) to be present; absent keys
default to `None`, mirroring that the code only indexes keys it has
already checked. -/
def payloadGet (dados : Payload) (f : String) : PyValue :=
  (List.lookup f dados).getD PyValue.noneV

/-- Python `float(v)`: `some q` when the conversion succeeds with value
`q`, `none` when it raises `ValueError` or `TypeError` (both caught by the
type check in `validate_input`).  `float(True) = 1.0`, `float(False) = 0.0`. -/
def pyFloat? : PyValue → Option ℚ
  | PyValue.intV n => some (n : ℚ)
  | PyValue.floatV q => some q
  | PyValue.boolV b => some (if b then 1 else 0)
  | PyValue.numStr q => some q
  | PyValue.nonNumStr _ => none
  | PyValue.noneV => none

/-- The value of a successful `float(v)`, totalized with a default that is
never reached on validated data. -/
def pyFloatD (v : PyValue) : ℚ := (pyFloat? v).getD 0

/-- Python `v < 0` on a raw payload value (line 245 of the source compares
`dados["Amount"]`, not `float(dados["Amount"])`).  `some b` when the
comparison is defined, `none` when it raises `TypeError` (string or `None`
compared against `int`); this `TypeError` is *not* caught inside
`validate_input`. -/
def pyLtInt0 : PyValue → Option Bool
  | PyValue.intV n => some (decide (n < 0))
  | PyValue.floatV q => some (decide (q < 0))
  | PyValue.boolV b => some (decide ((if b then (1 : Int) else 0) < 0))
  | PyValue.numStr _ => none
  | PyValue.nonNumStr _ => none
  | PyValue.noneV => none

/-- The schema list `required_fields = [f'V{i}' for i in range(1, 29)] + ['Amount']`. -/
def required_fields : List String :=
  (List.range 28).map (fun i => "V" ++ toString (i + 1)) ++ ["Amount"]

/-- Python `str` of a list of strings, as interpolated into the
missing-fields message (`repr` quotes each element). -/
def pyListRepr (xs : List String) : String :=
  "[" ++ String.intercalate ", " (xs.map (fun s => "\x27" ++ s ++ "\x27")) ++ "]"

/-- The list comprehension at line 233: required fields absent from the
payload, in schema order. -/
def missing_fields (dados : Payload) : List String :=
  required_fields.filter (fun f => (List.lookup f dados).isNone)

/-- The type-check loop at lines 238-242: the first required field whose
value `float` rejects (the loop returns at the first failure). -/
def first_invalid_field (dados : Payload) : Option String :=
  required_fields.find? (fun f => (pyFloat? (payloadGet dados f)).isNone)

/-- Result of `validate_input`: the returned `(bool, str)` pair, or
`raised` when the uncaught `TypeError` from the raw `Amount < 0`
comparison propagates out of the method. -/
inductive ValidateResult where
  | ok (valid : Bool) (msg : String)
  | raised
deriving DecidableEq, Repr

/-- Method `ModelManager.validate_input` (lines 228-248): missing-key check, then
per-field `float` conversion check in schema order, then the raw
comparison `dados["Amount"] < 0`. -/
def validate_input (dados : Payload) : ValidateResult :=
  if missing_fields dados ≠ [] then
    ValidateResult.ok false
      ("Campos obrigatórios não encontrados: " ++ pyListRepr (missing_fields dados))
  else
    match first_invalid_field dados with
    | some f => ValidateResult.ok false ("Campo \x27" ++ f ++ "\x27 deve ser um número válido")
    | none =>
      match pyLtInt0 (payloadGet dados "Amount") with
      | none => ValidateResult.raised
      | some true => ValidateResult.ok false "Amount deve ser maior ou igual a zero"
      | some false => ValidateResult.ok true "Dados válidos"

/-- A value that is a Python number or boolean (the values on which the
raw `< 0` comparison is defined). -/
def isNumBool : PyValue → Bool
  | PyValue.intV _ => true
  | PyValue.floatV _ => true
  | PyValue.boolV _ => true
  | _ => false

/-- Payload whose `Amount` is the numeric *string* `"-5"`; every field is
present and `float`-convertible. -/
def c2cex : Payload :=
  ((List.range 28).map (fun i => ("V" ++ toString (i + 1), PyValue.intV 0)))
    ++ [("Amount", PyValue.numStr (-5))]

/-- Payload with a boolean `V1` and all other required values plain
numbers, with `Amount = -1`. -/
def c10cex : Payload :=
  [("V1", PyValue.boolV true)]
    ++ ((List.range 27).map (fun i => ("V" ++ toString (i + 2), PyValue.intV 0)))
    ++ [("Amount", PyValue.intV (-1))]

theorem isNumBool_pyFloat_isSome {v : PyValue} (h : isNumBool v = true) :
    (pyFloat? v).isSome = true := by
  cases v <;> simp_all [isNumBool, pyFloat?]

theorem missing_fields_eq_nil {dados : Payload}
    (hkeys : ∀ f ∈ required_fields, (List.lookup f dados).isSome = true) :
    missing_fields dados = [] := by
  simp only [missing_fields, List.filter_eq_nil_iff]
  intro f hf
  have h := hkeys f hf
  cases hc : List.lookup f dados with
  | none => rw [hc] at h; simp at h
  | some v => simp [hc]

theorem first_invalid_field_eq_none {dados : Payload}
    (hconv : ∀ f ∈ required_fields, (pyFloat? (payloadGet dados f)).isSome = true) :
    first_invalid_field dados = none := by
  simp only [first_invalid_field, List.find?_eq_none]
  intro f hf
  have h := hconv f hf
  cases hc : pyFloat? (payloadGet dados f) with
  | none => rw [hc] at h; simp at h
  | some q => simp [hc]

/-- All-`V` payload builder used for concrete test inputs. -/
def constPayload (v amt : PyValue) : Payload :=
  ((List.range 28).map (fun i => ("V" ++ toString (i + 1), v))) ++ [("Amount", amt)]

/-- Fully numeric payload with `Amount = -3`. -/
def negAmountPayload : Payload := constPayload (PyValue.intV 0) (PyValue.intV (-3))

/-- Payload whose 29 required values are all booleans. -/
def boolPayload : Payload := constPayload (PyValue.boolV true) (PyValue.boolV false)

/-- C2 (counterexample): a payload whose 29 keys are all present and all
`float`-convertible and whose `Amount` is the negative numeric string
`"-5"` makes `validate_input` raise `TypeError` at the raw comparison
`dados["Amount"] < 0` instead of returning the amount-specific failure. -/
theorem c2_string_amount_counterexample :
    (∀ f ∈ required_fields, (List.lookup f c2cex).isSome = true)
    ∧ pyFloat? (payloadGet c2cex "Amount") = some (-5)
    ∧ validate_input c2cex = ValidateResult.raised := by
  refine ⟨by decide, by decide, by decide⟩

/-- C2 (amended): for every payload with all 29 required keys present and
all values `float`-convertible, if `Amount` is a value on which the raw
comparison `dados["Amount"] < 0` is defined and true (a negative `int` or
`float`; never a string), `validate_input` returns the dedicated
amount-specific failure message. -/
theorem c2_negative_amount_number (dados : Payload)
    (hkeys : ∀ f ∈ required_fields, (List.lookup f dados).isSome = true)
    (hconv : ∀ f ∈ required_fields, (pyFloat? (payloadGet dados f)).isSome = true)
    (hneg : pyLtInt0 (payloadGet dados "Amount") = some true) :
    validate_input dados = ValidateResult.ok false "Amount deve ser maior ou igual a zero" := by
  unfold validate_input
  rw [missing_fields_eq_nil hkeys, first_invalid_field_eq_none hconv, hneg]
  simp

/-- Witness for `c2_negative_amount_number` at a concrete all-numeric
payload with `Amount = -3`. -/
theorem c2_negative_amount_number_witness :
    validate_input negAmountPayload
      = ValidateResult.ok false "Amount deve ser maior ou igual a zero" :=
  c2_negative_amount_number negAmountPayload (by decide) (by decide) (by decide)

/-- C5: `validate_input` applies its checks in the fixed order
missing-keys, then `float`-convertibility in schema order, then the
`Amount` range comparison, returning on the first failing category only:
with any key missing it reports exactly the missing-fields message
(whatever the present values are); with all keys present and some value
non-convertible it reports exactly the first offending field (regardless
of the `Amount` sign); and only with all keys present and convertible does
it reach the range stage, whose only outcomes are the raised `TypeError`,
the amount message, or success. -/
theorem c5_fail_fast_order (dados : Payload) :
    (missing_fields dados ≠ [] →
      validate_input dados
        = ValidateResult.ok false
            ("Campos obrigatórios não encontrados: " ++ pyListRepr (missing_fields dados)))
    ∧ (∀ f, missing_fields dados = [] → first_invalid_field dados = some f →
      validate_input dados
        = ValidateResult.ok false ("Campo \x27" ++ f ++ "\x27 deve ser um número válido"))
    ∧ (missing_fields dados = [] → first_invalid_field dados = none →
      (validate_input dados = ValidateResult.raised
        ∨ validate_input dados = ValidateResult.ok false "Amount deve ser maior ou igual a zero"
        ∨ validate_input dados = ValidateResult.ok true "Dados válidos")) := by
  refine ⟨?_, ?_, ?_⟩
  · intro h
    simp [validate_input, h]
  · intro f hm hf
    simp [validate_input, hm, hf]
  · intro hm hf
    simp only [validate_input, hm, hf]
    cases hlt : pyLtInt0 (payloadGet dados "Amount") with
    | none => simp [hlt]
    | some b => cases b <;> simp [hlt]

/-- Witness for `c5_fail_fast_order`: the empty payload is reported as
missing all 29 required fields. -/
theorem c5_fail_fast_order_witness :
    validate_input ([] : Payload)
      = ValidateResult.ok false
          ("Campos obrigatórios não encontrados: " ++ pyListRepr (missing_fields [])) :=
  (c5_fail_fast_order []).1 (by decide)

/-- C10 (counterexample): a payload in which `V1` is the boolean `True`,
`V2..V28` are numbers, and `Amount` is the number `-1` satisfies the
claim's premise (all 29 keys present, every value a boolean or a number)
yet `validate_input` returns the range failure, not success. -/
theorem c10_bool_counterexample :
    (∀ f ∈ required_fields, (List.lookup f c10cex).isSome = true)
    ∧ (∀ f ∈ required_fields, isNumBool (payloadGet c10cex f) = true)
    ∧ payloadGet c10cex "V1" = PyValue.boolV true
    ∧ validate_input c10cex ≠ ValidateResult.ok true "Dados válidos"
    ∧ validate_input c10cex = ValidateResult.ok false "Amount deve ser maior ou igual a zero" := by
  refine ⟨by decide, by decide, by decide, by decide, by decide⟩

/-- C10 (amended): booleans are accepted by the type check (`float(True)
= 1.0`, `float(False) = 0.0`) and a boolean `Amount` passes the range
comparison; for every payload whose 29 required values are all booleans
or numbers, provided the raw comparison `dados["Amount"] < 0` evaluates
to false (automatic for a boolean `Amount`, and true of any non-negative
number), `validate_input` returns success. -/
theorem c10_bool_accepted (dados : Payload)
    (hvals : ∀ f ∈ required_fields, Option.map isNumBool (List.lookup f dados) = some true)
    (hamt : pyLtInt0 (payloadGet dados "Amount") = some false) :
    validate_input dados = ValidateResult.ok true "Dados válidos"
    ∧ pyFloat? (PyValue.boolV true) = some 1
    ∧ pyFloat? (PyValue.boolV false) = some 0 := by
  have hkeys : ∀ f ∈ required_fields, (List.lookup f dados).isSome = true := by
    intro f hf
    have h := hvals f hf
    cases hc : List.lookup f dados with
    | none => rw [hc] at h; simp at h
    | some v => simp [hc]
  have hconv : ∀ f ∈ required_fields, (pyFloat? (payloadGet dados f)).isSome = true := by
    intro f hf
    have h := hvals f hf
    cases hc : List.lookup f dados with
    | none => rw [hc] at h; simp at h
    | some v =>
      rw [hc] at h
      simp at h
      have hv : payloadGet dados f = v := by simp [payloadGet, hc]
      rw [hv]
      exact isNumBool_pyFloat_isSome h
  refine ⟨?_, rfl, rfl⟩
  unfold validate_input
  rw [missing_fields_eq_nil hkeys, first_invalid_field_eq_none hconv, hamt]
  simp

/-- Witness for `c10_bool_accepted` at the all-boolean payload (`V1..V28 =
True`, `Amount = False`). -/
theorem c10_bool_accepted_witness :
    validate_input boolPayload = ValidateResult.ok true "Dados válidos" :=
  (c10_bool_accepted boolPayload (by decide) (by decide)).1

/-- The fitted amount scaler: an opaque one-dimensional forward transform
(sklearn `StandardScaler.transform` applied to the single value
`[[Amount]]`; sklearn itself is external code, so the transform is
abstract). -/
structure Scaler where
  transform : ℚ → ℚ

/-- Method `ModelManager.preprocess_data` (lines 250-262): append
`float(dados[f'V{i}'])` for `i = 1..28` in ascending order, then the
scaler's transform of `float(dados['Amount'])` last; the result is the
single row of the returned `1 × 29` array. -/
def preprocess_data (scaler : Scaler) (dados : Payload) : List ℚ :=
  ((List.range 28).map (fun i => pyFloatD (payloadGet dados ("V" ++ toString (i + 1)))))
    ++ [scaler.transform (pyFloatD (payloadGet dados "Amount"))]

/-- C6: on every payload accepted by `validate_input`, `preprocess_data`
produces a vector of exactly 29 elements, whose element `i` (for
`i < 28`) is `float(dados[f'V{i+1}'])` and whose last element is the
scaler's forward transform of `float(dados['Amount'])`. -/
theorem c6_preprocess_shape (scaler : Scaler) (dados : Payload)
    (hvalid : validate_input dados = ValidateResult.ok true "Dados válidos") :
    (preprocess_data scaler dados).length = 29
    ∧ (∀ i, i < 28 →
        (preprocess_data scaler dados)[i]?
          = some (pyFloatD (payloadGet dados ("V" ++ toString (i + 1)))))
    ∧ (preprocess_data scaler dados)[28]?
        = some (scaler.transform (pyFloatD (payloadGet dados "Amount"))) := by
  refine ⟨by simp [preprocess_data], ?_, ?_⟩
  · intro i hi
    simp only [preprocess_data]
    rw [List.getElem?_append_left (by simpa using hi), List.getElem?_map,
        List.getElem?_range hi]
    rfl
  · simp only [preprocess_data]
    rw [List.getElem?_append_right (by simp)]
    simp

/-- Witness for `c6_preprocess_shape` at an all-zero payload with
`Amount = 5` and the identity transform. -/
theorem c6_preprocess_shape_witness :
    validate_input (constPayload (PyValue.intV 0) (PyValue.intV 5))
      = ValidateResult.ok true "Dados válidos"
    ∧ (preprocess_data ⟨fun x => x⟩ (constPayload (PyValue.intV 0) (PyValue.intV 5))).length
        = 29 :=
  ⟨by decide, (c6_preprocess_shape ⟨fun x => x⟩ _ (by decide)).1⟩

/-- The risk-tier chain of `predict` (lines 461-471). -/
def risk_level (prob_fraude : ℚ) : String :=
  if prob_fraude ≥ 8/10 then "MUITO_ALTO"
  else if prob_fraude ≥ 6/10 then "ALTO"
  else if prob_fraude ≥ 4/10 then "MEDIO"
  else if prob_fraude ≥ 2/10 then "BAIXO"
  else "MUITO_BAIXO"

/-- C4: the risk tier follows the closed-open bins with descending
priority, and each left endpoint belongs to its upper bin. -/
theorem c4_risk_bins (p : ℚ) :
    (p ≥ 8/10 → risk_level p = "MUITO_ALTO")
    ∧ (6/10 ≤ p ∧ p < 8/10 → risk_level p = "ALTO")
    ∧ (4/10 ≤ p ∧ p < 6/10 → risk_level p = "MEDIO")
    ∧ (2/10 ≤ p ∧ p < 4/10 → risk_level p = "BAIXO")
    ∧ (p < 2/10 → risk_level p = "MUITO_BAIXO")
    ∧ risk_level (8/10) = "MUITO_ALTO"
    ∧ risk_level (6/10) = "ALTO"
    ∧ risk_level (4/10) = "MEDIO"
    ∧ risk_level (2/10) = "BAIXO" := by
  refine ⟨?_, ?_, ?_, ?_, ?_,
    by simp only [risk_level]; norm_num,
    by simp only [risk_level]; norm_num,
    by simp only [risk_level]; norm_num,
    by simp only [risk_level]; norm_num⟩
  · intro h
    simp only [risk_level]
    split_ifs with ha <;> first | rfl | (exfalso; linarith)
  · rintro ⟨h1, h2⟩
    simp only [risk_level]
    split_ifs with ha hb <;> first | rfl | (exfalso; linarith)
  · rintro ⟨h1, h2⟩
    simp only [risk_level]
    split_ifs with ha hb hc <;> first | rfl | (exfalso; linarith)
  · rintro ⟨h1, h2⟩
    simp only [risk_level]
    split_ifs with ha hb hc hd <;> first | rfl | (exfalso; linarith)
  · intro h
    simp only [risk_level]
    split_ifs with ha hb hc hd <;> first | rfl | (exfalso; linarith)

/-- Witness for `c4_risk_bins` at the boundary probability `0.8`. -/
theorem c4_risk_bins_witness : risk_level (8/10) = "MUITO_ALTO" :=
  (c4_risk_bins (8/10)).1 (le_refl _)

/-- Python `round(x, 4)`, modelled as rounding `x * 10^4` to the nearest
integer over `ℚ` (Python's float round-half-even at exact ties is not
distinguished; no claim depends on it). -/
def round4 (q : ℚ) : ℚ := ((round (q * 10000) : ℤ) : ℚ) / 10000

/-- The fields of the `response` dict assembled at lines 480-498 that are
derived from the prediction (timing and static metadata omitted). -/
structure PredictResponse where
  fraude : Int
  probabilidade_fraude : ℚ
  probabilidade_normal : ℚ
  status : String
  nivel_risco : String
  acao : String
  confianca : String
deriving DecidableEq, Repr

/-- Assembly of the prediction response: `resultado` is the predicted
label from `modelo.predict`, `probabilidades = (P(normal), P(fraude))`
from `modelo.predict_proba`. -/
def build_response (resultado : Int) (probabilidades : ℚ × ℚ) : PredictResponse :=
  { fraude := resultado
  , probabilidade_fraude := round4 probabilidades.2
  , probabilidade_normal := round4 probabilidades.1
  , status := if resultado = 1 then "FRAUDE" else "NORMAL"
  , nivel_risco := risk_level probabilidades.2
  , acao := if resultado = 1 then "BLOQUEAR" else "APROVAR"
  , confianca := if |probabilidades.2 - 1/2| > 3/10 then "ALTA" else "MEDIA" }

/-- C7: the recommended action is `BLOQUEAR` exactly when the discrete
label is 1 and `APROVAR` otherwise; it is a function of the label alone
(unchanged under any change of the probabilities), and it can disagree
with the risk tier (label 0 with fraud probability 0.9 gives `APROVAR`
beside tier `MUITO_ALTO`). -/
theorem c7_action_from_label (resultado : Int) (pb pb2 : ℚ × ℚ) :
    ((build_response resultado pb).acao = "BLOQUEAR" ↔ resultado = 1)
    ∧ (resultado ≠ 1 → (build_response resultado pb).acao = "APROVAR")
    ∧ (build_response resultado pb).acao = (build_response resultado pb2).acao
    ∧ (build_response 0 (1/10, 9/10)).acao = "APROVAR"
    ∧ (build_response 0 (1/10, 9/10)).nivel_risco = "MUITO_ALTO" := by
  refine ⟨?_, ?_, by simp [build_response], by decide,
    by simp only [build_response, risk_level]; norm_num⟩
  · constructor
    · intro ha
      by_contra h
      simp only [build_response, if_neg h] at ha
      exact (by decide : ("APROVAR" : String) ≠ "BLOQUEAR") ha
    · intro h
      simp [build_response, h]
  · intro h
    simp [build_response, h]

/-- Witness for `c7_action_from_label`: label 1 yields `BLOQUEAR`. -/
theorem c7_action_from_label_witness :
    (build_response 1 (0, 1)).acao = "BLOQUEAR" :=
  (c7_action_from_label 1 (0, 1) (0, 1)).1.mpr rfl

/-- The deserialized classifier (a pickled XGBoost model; external code).
Its two entry points take one feature row and may raise, hence the
`Except`: `predict` yields the discrete label, `predict_proba` the pair
`(P(normal), P(fraude))`. -/
structure Classifier where
  predict : List ℚ → Except String Int
  predict_proba : List ℚ → Except String (ℚ × ℚ)

/-- The metadata fields the code reads (via `.get` with defaults). -/
structure Metadata where
  modelo_tipo : String
  versao_modelo : String
  numero_features : Nat
  data_treinamento : String
deriving DecidableEq, Repr

/-- The default metadata dict built at lines 205-210 when
`modelo_metadata.pkl` is absent. -/
def default_metadata (n : Nat) : Metadata :=
  ⟨"XGBoost", "1.0.0", n, "Não disponível"⟩

/-- The default feature-name list built at line 197:
`[f'V{i}' for i in range(1, 29)] + ['Amount_Norm']`. -/
def default_feature_names : List String :=
  (List.range 28).map (fun i => "V" ++ toString (i + 1)) ++ ["Amount_Norm"]

/-- The fixed reference sample the temporary scaler is fitted on
(line 187). -/
def scaler_fit_sample : List ℚ := [0, 1, 25, 77, 2125.87]

/-- The candidate base directories tried in order (line 138). -/
def base_paths : List String := ["models/", "../models/", "./"]

/-- Python `os.path.join(base, filename)` for a relative `filename`: inserts a
separator only when `base` does not already end with one (the check is on
the last character, which agrees with `str.endswith` on the nonempty
constant bases used here). -/
def join_path (base filename : String) : String :=
  if base.data.getLast? = some (Char.ofNat 47) then base ++ filename
  else base ++ "/" ++ filename

/-- The inner loop at lines 151-156: the first candidate path (in
`base_paths` order) at which `filename` exists. -/
def find_artifact (fs : List String) (filename : String) : Option String :=
  (base_paths.map (fun b => join_path b filename)).find? (fun p => fs.contains p)

/-- An exception inside the `try` of `load_models`: the explicit
`FileNotFoundError` raised at line 170, or a failure while deserializing
an artifact. Both are caught by the `except Exception` at line 223. -/
inductive LoadErr where
  | fileNotFound (filename : String)
  | loadFailed (msg : String)
deriving DecidableEq, Repr

/-- The `model_paths` dict after the search loop at lines 147-170:
`modelo` is required; `scaler` and `metadata` may be `None`; `features`
is stored as an optional path, but the loop raises when it is absent, so
only `some _` ever reaches the load phase. -/
structure ModelPaths where
  modelo : String
  scaler : Option String
  features : Option String
  metadata : Option String
deriving DecidableEq, Repr

/-- The environment `load_models` runs against: the set of existing
files, and the external `joblib.load` / `sklearn` behaviours, abstracted
per artifact (external library code, not this repository's). -/
structure LoadEnv where
  fs : List String
  load_modelo : String → Except String Classifier
  load_scaler : String → Except String Scaler
  load_features : String → Except String (List String)
  load_metadata : String → Except String Metadata
  standardScalerFit : List ℚ → Scaler

/-- The artifact-search loop at lines 147-170, iterating the
`model_files` dict in insertion order (`modelo`, `scaler`, `features`,
`metadata`): a missing `scaler` or `metadata` file becomes `None`, a
missing `modelo` or `features` file raises `FileNotFoundError` (line 170
is the `else` of the chain that special-cases only `metadata` and
`scaler`). -/
def search_model_paths (fs : List String) : Except LoadErr ModelPaths :=
  match find_artifact fs "modelo_fraude.pkl" with
  | none => Except.error (LoadErr.fileNotFound "modelo_fraude.pkl")
  | some modelo_path =>
    let scaler_path := find_artifact fs "scaler_amount.pkl"
    match find_artifact fs "feature_names.pkl" with
    | none => Except.error (LoadErr.fileNotFound "feature_names.pkl")
    | some features_path =>
      Except.ok
        { modelo := modelo_path
        , scaler := scaler_path
        , features := some features_path
        , metadata := find_artifact fs "modelo_metadata.pkl" }

/-- The four artifacts once loaded. -/
structure Artifacts where
  modelo : Classifier
  scaler : Scaler
  features : List String
  metadata : Metadata

/-- The load phase at lines 172-211: `joblib.load` the classifier, then
the scaler (or fit the temporary `StandardScaler` on the reference
sample), then the feature names (the `else` default at lines 196-198 is
kept, although the search loop never hands it a `none`), then the
metadata (or the default dict). -/
def load_artifacts (env : LoadEnv) (paths : ModelPaths) : Except LoadErr Artifacts :=
  match env.load_modelo paths.modelo with
  | Except.error e => Except.error (LoadErr.loadFailed e)
  | Except.ok modelo =>
    match (match paths.scaler with
           | some p => env.load_scaler p
           | none => Except.ok (env.standardScalerFit scaler_fit_sample)) with
    | Except.error e => Except.error (LoadErr.loadFailed e)
    | Except.ok scaler =>
      match (match paths.features with
             | some p => env.load_features p
             | none => Except.ok default_feature_names) with
      | Except.error e => Except.error (LoadErr.loadFailed e)
      | Except.ok features =>
        match (match paths.metadata with
               | some p => env.load_metadata p
               | none => Except.ok (default_metadata features.length)) with
        | Except.error e => Except.error (LoadErr.loadFailed e)
        | Except.ok metadata => Except.ok ⟨modelo, scaler, features, metadata⟩

/-- The body of the `try` block of `load_models` (lines 136-221). -/
def load_models_body (env : LoadEnv) : Except LoadErr Artifacts :=
  match search_model_paths env.fs with
  | Except.error e => Except.error e
  | Except.ok paths => load_artifacts env paths

/-- The attributes of the `ModelManager` singleton. -/
structure ModelManagerState where
  modelo : Option Classifier
  scaler : Option Scaler
  feature_names : Option (List String)
  metadata : Option Metadata
  model_loaded : Bool

/-- Constructor `ModelManager.__init__` (lines 127-132). -/
def init_state : ModelManagerState := ⟨none, none, none, none, false⟩

/-- Method `ModelManager.load_models` (lines 134-226): on success all four
attributes are assigned and `model_loaded` is set before returning
`True`; any exception is caught by the `except Exception` handler, which
sets `model_loaded = False` and returns `False`.  (Attribute assignments
made before a mid-load failure are not tracked: every route reads the
artifact attributes only after checking `model_loaded`.) -/
def load_models (env : LoadEnv) (st : ModelManagerState) : Bool × ModelManagerState :=
  match load_models_body env with
  | Except.ok a => (true, ⟨some a.modelo, some a.scaler, some a.features, some a.metadata, true⟩)
  | Except.error _ => (false, { st with model_loaded := false })

/-- The JSON body and HTTP code returned by `/health`. -/
structure HealthStatus where
  api_status : String
  model_status : String
  http_code : Nat
deriving DecidableEq, Repr

/-- The `/health` route (lines 385-415).  With the model loaded it runs a
smoke `modelo.predict` on one all-zero row of width
`len(feature_names)`; an exception anywhere in the `try` (including a
`None` `feature_names` or `modelo`, or a raising classifier) reaches the
`except`, which answers `api_status = model_status = 'error'` with
HTTP 500.  The handler never writes to the manager, so the state is
returned unchanged. -/
def health_check (st : ModelManagerState) : HealthStatus × ModelManagerState :=
  let res : Except String HealthStatus :=
    if st.model_loaded then
      match st.feature_names with
      | none => Except.error "TypeError: object of type NoneType has no len"
      | some fns =>
        match st.modelo with
        | none => Except.error "AttributeError: NoneType has no attribute predict"
        | some m =>
          match m.predict (List.replicate fns.length 0) with
          | Except.error e => Except.error e
          | Except.ok _ => Except.ok ⟨"healthy", "healthy", 200⟩
    else Except.ok ⟨"degraded", "error", 503⟩
  match res with
  | Except.ok h => (h, st)
  | Except.error _ => (⟨"error", "error", 500⟩, st)

/-- Which pipeline stages a `/predict` call actually entered. -/
structure PredictTrace where
  validated : Bool
  preprocessed : Bool
  classifier_invoked : Bool
deriving DecidableEq, Repr

/-- The response class of `/predict`: 503 when the model is not loaded,
400 for an empty body or a validation failure, 200 on success, 500 when
an exception (e.g. the `TypeError` from `validate_input`, a `None`
attribute, or a raising classifier) reaches the outer `except`. -/
inductive PredictResp where
  | unavailable
  | no_data
  | validation_error (msg : String)
  | internal_error (msg : String)
  | ok200 (resp : PredictResponse)

/-- The `/predict` route body (lines 421-518), given the already-parsed
JSON payload: readiness gate, falsy-body gate, `validate_input`,
`preprocess_data`, `modelo.predict`, `modelo.predict_proba`, response
assembly.  The trace records which stages ran. -/
def predict_route (st : ModelManagerState) (dados : Payload) :
    PredictResp × PredictTrace :=
  if st.model_loaded = false then (PredictResp.unavailable, ⟨false, false, false⟩)
  else if dados = [] then (PredictResp.no_data, ⟨false, false, false⟩)
  else
    match validate_input dados with
    | ValidateResult.raised =>
      (PredictResp.internal_error "TypeError from validate_input", ⟨true, false, false⟩)
    | ValidateResult.ok false msg => (PredictResp.validation_error msg, ⟨true, false, false⟩)
    | ValidateResult.ok true _ =>
      match st.scaler with
      | none =>
        (PredictResp.internal_error "AttributeError: NoneType scaler", ⟨true, false, false⟩)
      | some scaler =>
        match st.modelo with
        | none =>
          (PredictResp.internal_error "AttributeError: NoneType model", ⟨true, true, false⟩)
        | some modelo =>
          match modelo.predict (preprocess_data scaler dados) with
          | Except.error e => (PredictResp.internal_error e, ⟨true, true, true⟩)
          | Except.ok resultado =>
            match modelo.predict_proba (preprocess_data scaler dados) with
            | Except.error e => (PredictResp.internal_error e, ⟨true, true, true⟩)
            | Except.ok probabilidades =>
              (PredictResp.ok200 (build_response resultado probabilidades), ⟨true, true, true⟩)

/-- A classifier whose invocations succeed with fixed outputs. -/
def triv_classifier : Classifier :=
  ⟨fun _ => Except.ok 0, fun _ => Except.ok (1, 0)⟩

/-- A classifier whose invocations raise. -/
def fail_classifier : Classifier :=
  ⟨fun _ => Except.error "predict failure", fun _ => Except.error "predict failure"⟩

/-- An environment over the given files in which every deserialization
succeeds. -/
def ok_env (fs : List String) : LoadEnv :=
  { fs := fs
  , load_modelo := fun _ => Except.ok triv_classifier
  , load_scaler := fun _ => Except.ok ⟨fun x => x⟩
  , load_features := fun _ => Except.ok default_feature_names
  , load_metadata := fun _ => Except.ok (default_metadata 29)
  , standardScalerFit := fun _ => ⟨fun x => x⟩ }

/-- A ready state whose classifier raises on every invocation. -/
def c3_state : ModelManagerState :=
  ⟨some fail_classifier, some ⟨fun x => x⟩, some default_feature_names,
   some (default_metadata 29), true⟩

/-- C9: `load_models` never propagates an exception: whatever the
filesystem and the artifact deserialization behaviours, it returns, and
it returns `True` with `model_loaded = True` or `False` with
`model_loaded = False` (the whole body sits in a `try` whose
`except Exception` is exhaustive for lookup and loading failures). -/
theorem c9_load_models_total (env : LoadEnv) (st : ModelManagerState) :
    ((load_models env st).1 = true ∧ (load_models env st).2.model_loaded = true)
    ∨ ((load_models env st).1 = false ∧ (load_models env st).2.model_loaded = false) := by
  unfold load_models
  cases load_models_body env <;> simp

/-- C1 (code bug): with the classifier file present in `models/` but
`feature_names.pkl` absent from every candidate directory, the search
loop raises `FileNotFoundError` for `feature_names.pkl` (line 170's
`else` treats `features` as required), so `load_models` returns `False`
with `model_loaded = False` — the synthesized-default branch at lines
196-198 is unreachable for a missing file, contradicting the spec's
"optional" contract. -/
theorem c1_features_required_bug :
    find_artifact ["models/modelo_fraude.pkl"] "modelo_fraude.pkl"
      = some "models/modelo_fraude.pkl"
    ∧ find_artifact ["models/modelo_fraude.pkl"] "feature_names.pkl" = none
    ∧ search_model_paths ["models/modelo_fraude.pkl"]
        = Except.error (LoadErr.fileNotFound "feature_names.pkl")
    ∧ (load_models (ok_env ["models/modelo_fraude.pkl"]) init_state).1 = false
    ∧ (load_models (ok_env ["models/modelo_fraude.pkl"]) init_state).2.model_loaded
        = false := by
  refine ⟨by decide, by decide, ?_, ?_, ?_⟩ <;> rfl

/-- C8: when `modelo_fraude.pkl` exists in no candidate directory,
`load_models` returns `False`, `model_loaded` stays `False`, and every
`/predict` call is answered with the model-unavailable response with
validation, preprocessing and the classifier all uninvoked. -/
theorem c8_missing_classifier_rejects (env : LoadEnv)
    (h : find_artifact env.fs "modelo_fraude.pkl" = none) :
    (load_models env init_state).1 = false
    ∧ (load_models env init_state).2.model_loaded = false
    ∧ ∀ dados : Payload,
        predict_route (load_models env init_state).2 dados
          = (PredictResp.unavailable, ⟨false, false, false⟩) := by
  have hb : load_models_body env
      = Except.error (LoadErr.fileNotFound "modelo_fraude.pkl") := by
    unfold load_models_body search_model_paths
    rw [h]
  have hl : load_models env init_state
      = (false, { init_state with model_loaded := false }) := by
    unfold load_models
    rw [hb]
  refine ⟨by rw [hl], by rw [hl], ?_⟩
  intro dados
  rw [hl]
  rfl

/-- Witness for `c8_missing_classifier_rejects` over the empty
filesystem and a concrete payload. -/
theorem c8_missing_classifier_rejects_witness :
    (load_models (ok_env []) init_state).1 = false
    ∧ predict_route (load_models (ok_env []) init_state).2 negAmountPayload
        = (PredictResp.unavailable, ⟨false, false, false⟩) :=
  ⟨(c8_missing_classifier_rejects (ok_env []) rfl).1,
   (c8_missing_classifier_rejects (ok_env []) rfl).2.2 negAmountPayload⟩

/-- C3 (counterexample): on a ready state whose classifier raises during
the smoke prediction, `/health` answers `model_status = 'error'` but
`api_status = 'error'` (HTTP 500) — not the claimed `'degraded'` — while
leaving the manager state untouched. -/
theorem c3_smoke_error_counterexample :
    c3_state.model_loaded = true
    ∧ fail_classifier.predict (List.replicate default_feature_names.length 0)
        = Except.error "predict failure"
    ∧ (health_check c3_state).1.model_status = "error"
    ∧ (health_check c3_state).1.api_status = "error"
    ∧ (health_check c3_state).1.api_status ≠ "degraded"
    ∧ (health_check c3_state).2 = c3_state := by
  refine ⟨?_, ?_, ?_, ?_, by decide, ?_⟩ <;> rfl

/-- C3 (amended): on every ready state whose smoke prediction raises,
`health_check` catches the exception and reports `model_status =
'error'` with overall `api_status = 'error'` (HTTP 500, the route's
`except` branch — not `'degraded'`, which is reserved for the unready
case), and the `ModelManager` state, `model_loaded` included, is
unchanged; the route itself never propagates the exception. -/
theorem c3_health_smoke_error (st : ModelManagerState) (fns : List String)
    (m : Classifier) (e : String)
    (hloaded : st.model_loaded = true)
    (hf : st.feature_names = some fns)
    (hm : st.modelo = some m)
    (hraise : m.predict (List.replicate fns.length 0) = Except.error e) :
    (health_check st).1.model_status = "error"
    ∧ (health_check st).1.api_status = "error"
    ∧ (health_check st).1.http_code = 500
    ∧ (health_check st).2 = st := by
  simp [health_check, hloaded, hf, hm, hraise]

/-- Witness for `c3_health_smoke_error` at the concrete raising-ready
state. -/
theorem c3_health_smoke_error_witness :
    (health_check c3_state).1.api_status = "error"
    ∧ (health_check c3_state).2 = c3_state :=
  ⟨(c3_health_smoke_error c3_state default_feature_names fail_classifier
      "predict failure" rfl rfl rfl rfl).2.1,
   (c3_health_smoke_error c3_state default_feature_names fail_classifier
      "predict failure" rfl rfl rfl rfl).2.2.2⟩

end FraudAPI
